import Mathlib

/-
Verification of the ingestion core (Implementation/etl_wazuh_to_pg.py) and the
query front end (Implementation/main.py).

The Python code is shallowly embedded: pure helpers become Lean functions,
the per-line loop of main() becomes a fold over a step function on an explicit
run state, and the state file plus database table become an explicit world
value threaded through runs.  Calls into external libraries whose outcome is
fully determined by the raw line bytes (json.loads, dateutil.parser.parse,
dict lookups, ipaddress validation) are modeled by the decoded content carried
on each input line; calls whose outcome depends on the external world
(psycopg2 errors, the Ollama endpoint, the live database) are modeled by
explicit oracles passed to the embedded functions.
-/

-- ===========================================================================
-- SHA-256 (hashlib.sha256(line.encode) .hexdigest), over byte lists.
-- Words are naturals kept below 2 ^ 32 by explicit reduction.
-- ===========================================================================

/-- Addition of two 32-bit words, reduced modulo 2 ^ 32. -/
def add32 (a b : Nat) : Nat := (a + b) % 2 ^ 32

/-- Right rotation of a 32-bit word by n bits. -/
def rotr (n x : Nat) : Nat := ((x >>> n) ||| (x <<< (32 - n))) % 2 ^ 32

/-- Bitwise complement of a 32-bit word. -/
def not32 (x : Nat) : Nat := x ^^^ (2 ^ 32 - 1)

/-- The eight initial hash values of SHA-256, written in decimal. -/
def sha256H0 : List Nat :=
  [1779033703, 3144134277, 1013904242, 2773480762,
   1359893119, 2600822924, 528734635, 1541459225]

/-- The sixty-four round constants of SHA-256, written in decimal. -/
def sha256K : List Nat :=
  [1116352408, 1899447441, 3049323471, 3921009573, 961987163,
   1508970993, 2453635748, 2870763221, 3624381080, 310598401,
   607225278, 1426881987, 1925078388, 2162078206, 2614888103,
   3248222580, 3835390401, 4022224774, 264347078, 604807628,
   770255983, 1249150122, 1555081692, 1996064986, 2554220882,
   2821834349, 2952996808, 3210313671, 3336571891, 3584528711,
   113926993, 338241895, 666307205, 773529912, 1294757372,
   1396182291, 1695183700, 1986661051, 2177026350, 2456956037,
   2730485921, 2820302411, 3259730800, 3345764771, 3516065817,
   3600352804, 4094571909, 275423344, 430227734, 506948616,
   659060556, 883997877, 958139571, 1322822218, 1537002063,
   1747873779, 1955562222, 2024104815, 2227730452, 2361852424,
   2428436474, 2756734187, 3204031479, 3329325298]

/-- Big-endian byte decomposition of a value into n bytes. -/
def beBytes : Nat → Nat → List Nat
  | 0, _ => []
  | n + 1, v => beBytes n (v / 256) ++ [v % 256]

/-- Groups a list of bytes into big-endian 32-bit words. -/
def bytesToWords : List Nat → List Nat
  | a :: b :: c :: d :: rest => (((a * 256 + b) * 256 + c) * 256 + d) :: bytesToWords rest
  | _ => []

/-- SHA-256 padding: a 0x80 byte, zeros up to 56 modulo 64, then the bit
length of the message on eight big-endian bytes. -/
def padMessage (msg : List Nat) : List Nat :=
  msg ++ [0x80] ++ List.replicate ((119 - msg.length % 64) % 64) 0
      ++ beBytes 8 (msg.length * 8)

/-- Extends a 16-word block by n further schedule words. -/
def extendW : Nat → List Nat → List Nat
  | 0, w => w
  | n + 1, w =>
      let t := w.length
      let w2 := w.getD (t - 2) 0
      let w7 := w.getD (t - 7) 0
      let w15 := w.getD (t - 15) 0
      let w16 := w.getD (t - 16) 0
      let s0 := (rotr 7 w15) ^^^ (rotr 18 w15) ^^^ (w15 >>> 3)
      let s1 := (rotr 17 w2) ^^^ (rotr 19 w2) ^^^ (w2 >>> 10)
      extendW n (w ++ [(w16 + s0 + w7 + s1) % 2 ^ 32])

/-- One SHA-256 round on the eight-word working state. -/
def sha256Round (st : List Nat) (k w : Nat) : List Nat :=
  match st with
  | [a, b, c, d, e, f, g, hh] =>
      let s1 := (rotr 6 e) ^^^ (rotr 11 e) ^^^ (rotr 25 e)
      let ch := (e &&& f) ^^^ ((not32 e) &&& g)
      let t1 := (hh + s1 + ch + k + w) % 2 ^ 32
      let s0 := (rotr 2 a) ^^^ (rotr 13 a) ^^^ (rotr 22 a)
      let mj := (a &&& b) ^^^ (a &&& c) ^^^ (b &&& c)
      let t2 := (s0 + mj) % 2 ^ 32
      [(t1 + t2) % 2 ^ 32, a, b, c, (d + t1) % 2 ^ 32, e, f, g]
  | s => s

/-- Compression of one 16-word block into the running hash. -/
def sha256Compress (h : List Nat) (block : List Nat) : List Nat :=
  let w := extendW 48 block
  let st := (sha256K.zip w).foldl (fun st p => sha256Round st p.1 p.2) h
  (h.zip st).map (fun p => (p.1 + p.2) % 2 ^ 32)

/-- Iterates the compression function over n blocks of 16 words. -/
def sha256Go : Nat → List Nat → List Nat → List Nat
  | 0, h, _ => h
  | n + 1, h, ws => sha256Go n (sha256Compress h (ws.take 16)) (ws.drop 16)

/-- The eight 32-bit words of the SHA-256 digest of a byte list. -/
def sha256Words (msg : List Nat) : List Nat :=
  sha256Go ((padMessage msg).length / 64) sha256H0 (bytesToWords (padMessage msg))

/-- Lower-case hexadecimal digit for a value below 16. -/
def hexChar (n : Nat) : Char :=
  if n < 10 then Char.ofNat (48 + n) else Char.ofNat (87 + n)

/-- Eight hexadecimal characters of one 32-bit word, most significant first. -/
def wordHex (w : Nat) : List Char :=
  [hexChar (w / 2 ^ 28 % 16), hexChar (w / 2 ^ 24 % 16),
   hexChar (w / 2 ^ 20 % 16), hexChar (w / 2 ^ 16 % 16),
   hexChar (w / 2 ^ 12 % 16), hexChar (w / 2 ^ 8 % 16),
   hexChar (w / 2 ^ 4 % 16), hexChar (w % 16)]

/-- The hex digest string of the SHA-256 of a byte list, mirroring
hashlib.sha256(bytes).hexdigest(). -/
def sha256hex (msg : List Nat) : String :=
  String.mk ((sha256Words msg).map wordHex).flatten

-- ===========================================================================
-- Timestamps (datetime values as seen by the loader).
-- A Python datetime is modeled by its displayed wall-clock value, as an
-- integer number of seconds, together with an optional utcoffset in seconds
-- (none models a naive datetime).
-- ===========================================================================

/-- Model of a Python datetime: wall-clock value in seconds plus an optional
timezone offset in seconds; tz = none models a naive datetime. -/
structure DateTime where
  naive : Int
  tz : Option Int
deriving DecidableEq

/-- The instant a datetime denotes: wall clock minus utcoffset.  Python
compares aware datetimes by this value. -/
def DateTime.instant (d : DateTime) : Int :=
  match d.tz with
  | none => d.naive
  | some off => d.naive - off

/-- Embeds the two branches of utcify on a present datetime: a naive value
gets tzinfo utc attached unchanged (assumed already UTC), an aware value is
converted with astimezone to the equivalent UTC wall clock. -/
def utcify1 (ts : DateTime) : DateTime :=
  match ts.tz with
  | none => ⟨ts.naive, some 0⟩
  | some off => ⟨ts.naive - off, some 0⟩

/-- Embeds utcify from etl_wazuh_to_pg.py: returns an aware UTC datetime,
or none for a missing one. -/
def utcify (ts : Option DateTime) : Option DateTime :=
  match ts with
  | none => none
  | some t => some (utcify1 t)

/-- Embeds parse_ts: the argument models the raw timestamp field after the
dateutil parse attempt, where none covers a missing or empty field as well
as a string dateutil cannot parse (the except branch). -/
def parse_ts (value : Option DateTime) : Option DateTime :=
  match value with
  | none => none
  | some d => utcify (some d)

-- ===========================================================================
-- Checkpoint store (STATE_FILE with one ISO timestamp).
-- The file is modeled as Option (Option DateTime): none is a missing file,
-- some none an empty or unparsable file, some (some d) a file whose text
-- dateutil parses to d.
-- ===========================================================================

/-- The instant of datetime.min, 0001-01-01 00:00:00, in Unix seconds. -/
def pyMinInstant : Int := -62135596800

/-- Embeds datetime.min.replace with tzinfo utc, the default watermark. -/
def pyMin : DateTime := ⟨pyMinInstant, some 0⟩

/-- Embeds get_last_ts: a missing, empty or unparsable state file degrades
to the minimum timestamp, otherwise the parsed value is normalized to UTC. -/
def get_last_ts (file : Option (Option DateTime)) : DateTime :=
  match file with
  | none => pyMin
  | some none => pyMin
  | some (some d) => utcify1 d

-- ===========================================================================
-- Input lines and the rows stored in the sink.
-- ===========================================================================

/-- Whitespace bytes stripped by str.strip (ASCII range). -/
def isWsByte (b : Nat) : Bool :=
  b == 32 || b == 9 || b == 10 || b == 13 || b == 11 || b == 12

/-- Embeds line.strip(): removes leading and trailing whitespace bytes. -/
def stripBytes (l : List Nat) : List Nat :=
  ((l.reverse.dropWhile isWsByte).reverse).dropWhile isWsByte

/-- The decoded content of a line whose json.loads succeeded.  tsVal models
the dateutil parse of the timestamp field (field lookup of the at-timestamp
key or the timestamp key, first truthy wins): none covers a missing or
falsy field and an unparsable string.  The remaining fields model the
defensive flattening of agent, rule and data plus the to_inet validation,
all of which are deterministic in the parsed payload.  payload models the
structured document stored as full_log. -/
structure LineData where
  tsVal : Option DateTime
  agent_name : Option String
  agent_id : Option String
  rule_id : Option Int
  rule_level : Option Int
  rule_desc : Option String
  src_ip : Option String
  user_name : Option String
  payload : String
deriving DecidableEq

/-- One raw source line: its bytes and its decoded content; parsed = none
models a line on which json.loads raises. -/
structure Line where
  raw : List Nat
  parsed : Option LineData
deriving DecidableEq

/-- One row of the logs table as inserted by the loader. -/
structure Row where
  ts : DateTime
  agent_name : Option String
  agent_id : Option String
  rule_id : Option Int
  rule_level : Option Int
  rule_desc : Option String
  src_ip : Option String
  user_name : Option String
  full_log : String
  raw_sha256 : String
deriving DecidableEq

/-- Builds the row inserted for a decoded line. -/
def mkRow (ts : DateTime) (d : LineData) (h : String) : Row :=
  ⟨ts, d.agent_name, d.agent_id, d.rule_id, d.rule_level, d.rule_desc,
   d.src_ip, d.user_name, d.payload, h⟩

-- ===========================================================================
-- The ingestion loop of main().
-- ===========================================================================

/-- The mutable state of one run of main(): the four counters, the in-memory
high watermark new_ts, the table contents, and the number of insert
statements attempted so far (the index into the sink error oracle). -/
structure RunState where
  scanned : Nat
  inserted : Nat
  skipped_old : Nat
  skipped_dupe : Nat
  new_ts : DateTime
  attempts : Nat
  db : List Row
deriving DecidableEq

/-- Increments the scanned counter, the first action on a non-empty line. -/
def bump (s : RunState) : RunState := { s with scanned := s.scanned + 1 }

/-- Embeds one iteration of the per-line loop of main().  The err oracle
models psycopg2 raising on the n-th executed INSERT (a transient sink
failure); on a successful execute the unique index on raw_sha256 with the
on-conflict-do-nothing clause inserts exactly when no stored row carries
the same fingerprint, and rowcount distinguishes the two outcomes. -/
def step (last_ts : DateTime) (err : Nat → Bool) (s : RunState) (line : Line) : RunState :=
  if stripBytes line.raw = [] then s
  else
    match line.parsed with
    | none => bump s
    | some d =>
      match parse_ts d.tsVal with
      | none => bump s
      | some ts =>
        if ts.instant ≤ last_ts.instant then
          { bump s with skipped_old := s.skipped_old + 1 }
        else if err s.attempts then
          { bump s with attempts := s.attempts + 1 }
        else if s.db.any (fun r => r.raw_sha256 == sha256hex (stripBytes line.raw)) then
          { bump s with skipped_dupe := s.skipped_dupe + 1, attempts := s.attempts + 1 }
        else
          { bump s with
              db := s.db ++ [mkRow ts d (sha256hex (stripBytes line.raw))],
              inserted := s.inserted + 1,
              new_ts := if s.new_ts.instant < ts.instant then ts else s.new_ts,
              attempts := s.attempts + 1 }

/-- The state at the top of the loop: zero counters, new_ts initialized to
the loaded watermark, the table as currently stored. -/
def initState (last : DateTime) (db : List Row) : RunState :=
  ⟨0, 0, 0, 0, last, 0, db⟩

/-- The world outside one run: the checkpoint file and the logs table. -/
structure Etl where
  stateFile : Option (Option DateTime)
  db : List Row
deriving DecidableEq

/-- The loop state after streaming all lines of the source. -/
def finalState (w : Etl) (lines : List Line) (err : Nat → Bool) : RunState :=
  List.foldl (step (get_last_ts w.stateFile) err)
    (initState (get_last_ts w.stateFile) w.db) lines

/-- The summary printed at the end of main(). -/
structure Summary where
  scanned : Nat
  inserted : Nat
  skipped_old : Nat
  skipped_dupe : Nat
  last_ts : DateTime
  new_ts : DateTime
deriving DecidableEq

/-- Embeds one invocation of main(): load the watermark, fold the loop over
the source lines, persist the watermark through save_last_ts exactly when
new_ts strictly advanced (save_last_ts writes the isoformat of the value
converted to UTC, which parses back to the same aware datetime), and report
the summary. -/
def runETL (w : Etl) (lines : List Line) (err : Nat → Bool) : Etl × Summary :=
  (⟨if (get_last_ts w.stateFile).instant < (finalState w lines err).new_ts.instant
      then some (some (utcify1 (finalState w lines err).new_ts))
      else w.stateFile,
    (finalState w lines err).db⟩,
   ⟨(finalState w lines err).scanned, (finalState w lines err).inserted,
    (finalState w lines err).skipped_old, (finalState w lines err).skipped_dupe,
    get_last_ts w.stateFile, (finalState w lines err).new_ts⟩)

/-- A sequence of complete runs over possibly different sources and sink
error behaviors, world threaded through. -/
def applyRuns (w : Etl) (runs : List (List Line × (Nat → Bool))) : Etl :=
  runs.foldl (fun wa p => (runETL wa p.1 p.2).1) w

/-- A sink that never raises on an insert. -/
def noErr : Nat → Bool := fun _ => false

-- ===========================================================================
-- main.py: the query front end.  Text is modeled as lists of characters;
-- the three regular expressions of the file (the code fence search, the
-- DENYLIST word search, the SELECT prefix match and the LIMIT word search)
-- are embedded directly as scanning functions with Python re semantics on
-- their specific patterns: word boundaries, case-insensitivity, leftmost
-- match, greedy optional sql tag and whitespace, lazy fence body.
-- ===========================================================================

/-- Whitespace characters matched by the backslash-s class and str.strip. -/
def pyIsSpace (c : Char) : Bool :=
  c == ' ' || c == '\t' || c == '\n' || c == '\r' ||
  c == Char.ofNat 11 || c == Char.ofNat 12

/-- Embeds str.strip() on text: trailing whitespace removed first, then
leading whitespace. -/
def pyStripChars (l : List Char) : List Char :=
  ((l.reverse.dropWhile pyIsSpace).reverse).dropWhile pyIsSpace

/-- A word character in the sense of the backslash-w class. -/
def isWordChar (c : Char) : Bool := c.isAlphanum || c == '_'

/-- Case-insensitive prefix test: the pattern is given in lower case. -/
def startsCaseless : List Char → List Char → Bool
  | [], _ => true
  | _ :: _, [] => false
  | k :: ks, c :: cs => k == c.toLower && startsCaseless ks cs

/-- Whether the character n positions into l exists and is a word
character (the right word-boundary test after a keyword). -/
def nextIsWord (l : List Char) (n : Nat) : Bool :=
  match (l.drop n).headD ' ' with
  | c => isWordChar c

/-- Whether a whole-word, case-insensitive occurrence of kw starts at the
head of l, given the character just before l (none at string start). -/
def wordHere (kw : List Char) (prev : Option Char) (l : List Char) : Bool :=
  (match prev with
   | none => true
   | some p => !(isWordChar p)) &&
  (startsCaseless kw l && !(nextIsWord l kw.length))

/-- Scans l left to right for a whole-word occurrence of kw, threading the
previous character for the left boundary test. -/
def findWordAux (kw : List Char) (prev : Option Char) : List Char → Bool
  | [] => false
  | c :: cs => wordHere kw prev (c :: cs) || findWordAux kw (some c) cs

/-- Whether the pattern backslash-b kw backslash-b matches anywhere in l,
case-insensitively. -/
def hasWord (kw : List Char) (l : List Char) : Bool := findWordAux kw none l

/-- The nine keywords of DENYLIST, lower case. -/
def denyKeywords : List (List Char) :=
  [String.toList "insert", String.toList "update", String.toList "delete",
   String.toList "alter", String.toList "drop", String.toList "truncate",
   String.toList "create", String.toList "grant", String.toList "revoke"]

/-- Embeds DENYLIST.search: true when some denylisted keyword occurs as a
whole word. -/
def denySearch (l : List Char) : Bool := denyKeywords.any (fun k => hasWord k l)

/-- The select keyword. -/
def selectKw : List Char := String.toList "select"

/-- The limit keyword. -/
def limitKw : List Char := String.toList "limit"

/-- Whether the pattern anchored-whitespace-SELECT-boundary matches at the
start of l, case-insensitively. -/
def matchSelect (l : List Char) : Bool :=
  startsCaseless selectKw (l.dropWhile pyIsSpace) &&
  !(nextIsWord (l.dropWhile pyIsSpace) selectKw.length)

/-- The backtick character. -/
def btick : Char := Char.ofNat 96

/-- Whether l starts with three backticks. -/
def isTicks3 : List Char → Bool
  | a :: b :: c :: _ => a == btick && b == btick && c == btick
  | _ => false

/-- Finds the earliest three-backtick fence in l, returning the text before
it (empty fences included). -/
def findTicks : List Char → Option (List Char)
  | [] => none
  | c :: cs =>
      if isTicks3 (c :: cs) then some []
      else match findTicks cs with
           | none => none
           | some pre => some (c :: pre)

/-- The sql tag of the fence pattern. -/
def sqlTag : List Char := String.toList "sql"

/-- The fence body after an opening fence: the optional sql tag is consumed
greedily, then whitespace greedily, then the lazy group runs to the
earliest closing fence; none when no closing fence follows. -/
def fenceBody (l : List Char) : Option (List Char) :=
  findTicks ((if startsCaseless sqlTag l then l.drop 3 else l).dropWhile pyIsSpace)

/-- Embeds re.search of the code-fence pattern: the leftmost opening fence
from which a complete match exists wins, and its lazy group is returned. -/
def fenceSearch : List Char → Option (List Char)
  | [] => none
  | c :: cs =>
      if isTicks3 (c :: cs) then
        match fenceBody ((c :: cs).drop 3) with
        | some content => some content
        | none => fenceSearch cs
      else fenceSearch cs

/-- Embeds text.find for the semicolon: the text up to and including the
first semicolon, none when absent. -/
def findSemi : List Char → Option (List Char)
  | [] => none
  | c :: cs =>
      if c == ';' then some [c]
      else match findSemi cs with
           | none => none
           | some pre => some (c :: pre)

/-- The candidate SQL chosen by extract_sql before validation: the stripped
fence body when a fence matches, else the stripped text up to the first
semicolon, else the whole stripped text. -/
def chooseSql (t : List Char) : List Char :=
  match fenceSearch t with
  | some content => pyStripChars content
  | none =>
      match findSemi t with
      | some pre => pyStripChars pre
      | none => pyStripChars t

/-- Embeds extract_sql from main.py: extract the candidate, reject on a
denylisted keyword, reject when the anchored SELECT match fails, return
the SQL otherwise.  The error strings stand for the two HTTP 400 errors. -/
def extract_sql (text : String) : Except String String :=
  if denySearch (chooseSql text.toList) then
    Except.error "Generated SQL contains non-SELECT statements. Aborting."
  else if matchSelect (chooseSql text.toList) = false then
    Except.error "Generated SQL is not a SELECT."
  else Except.ok (String.mk (chooseSql text.toList))

/-- Embeds MAX_ROWS with its default configuration value. -/
def MAX_ROWS : Nat := 200

/-- Embeds sql.rstrip of the semicolon: removes all trailing semicolons. -/
def rstripSemi (l : List Char) : List Char :=
  (l.reverse.dropWhile (fun c => c == ';')).reverse

/-- The text appended by ask when the LIMIT token is absent, the format
string with MAX_ROWS interpolated. -/
def limitSuffix : List Char :=
  String.toList " LIMIT " ++ String.toList (Nat.repr MAX_ROWS) ++ [';']

/-- Embeds the statement preparation of the ask endpoint: the SQL returned
by extract_sql, with the LIMIT clause appended when the LIMIT token is
absent; this is the string handed to run_sql. -/
def ask_sql (text : String) : Except String String :=
  match extract_sql text with
  | Except.error e => Except.error e
  | Except.ok sql =>
      if hasWord limitKw sql.toList then Except.ok sql
      else Except.ok (String.mk (rstripSemi sql.toList ++ limitSuffix))

-- ===========================================================================
-- The healthz endpoint.  The database probe is external; its outcome is an
-- oracle: either the rows returned by the probe query (each row a list of
-- column-name, value pairs) or the message of a raised exception.
-- ===========================================================================

/-- A JSON value in the response dictionary of healthz. -/
inductive JVal where
  | jb (b : Bool)
  | js (s : String)
deriving DecidableEq

/-- Dictionary lookup on a row, mirroring row access by column name. -/
def dictGet (k : String) : List (String × Int) → Option Int
  | [] => none
  | p :: rest => if p.1 == k then some p.2 else dictGet k rest

/-- The body of the try block of health(): propagate a probe exception,
raise on an empty row list (index error) or a missing column (key error),
otherwise compare the probed value with 1. -/
def healthTry (probe : Except String (List (List (String × Int)))) : Except String Bool :=
  match probe with
  | Except.error e => Except.error e
  | Except.ok rows =>
      match rows with
      | [] => Except.error "list index out of range"
      | r :: _ =>
          match dictGet "ok" r with
          | none => Except.error "KeyError: ok"
          | some v => Except.ok (v == 1)

/-- Embeds health() from main.py: the try body wrapped by the except clause
that turns any exception into the failure dictionary. -/
def health (probe : Except String (List (List (String × Int)))) : List (String × JVal) :=
  match healthTry probe with
  | Except.ok db => [("ok", JVal.jb true), ("db", JVal.jb db)]
  | Except.error e => [("ok", JVal.jb false), ("error", JVal.js e)]


-- ===========================================================================
-- Concrete inputs used by the closed theorems and witnesses below.
-- ===========================================================================

/-- A valid line, one byte of payload, naive event time 1000 seconds. -/
def lineA : Line := ⟨[65], some ⟨some ⟨1000, none⟩, none, none, none, none, none, none, none, "A"⟩⟩

/-- A malformed line: json.loads raises on it. -/
def lineB : Line := ⟨[66], none⟩

/-- A valid line with naive event time 999, one second older than 1000. -/
def lineC : Line := ⟨[67], some ⟨some ⟨999, none⟩, none, none, none, none, none, none, none, "C"⟩⟩

/-- A line whose JSON parses but whose timestamp field is missing, falsy or
unparsable by dateutil: parse_ts yields none for it. -/
def lineN : Line := ⟨[78], some ⟨none, none, none, none, none, none, none, none, "N"⟩⟩

/-- A world whose state file holds the watermark instant 1000. -/
def wmT0 : Etl := ⟨some (some ⟨1000, some 0⟩), []⟩

/-- A valid line with naive event time 5. -/
def lineP : Line := ⟨[97], some ⟨some ⟨5, none⟩, none, none, none, none, none, none, none, "p"⟩⟩

/-- A valid line with naive event time 10. -/
def lineQ : Line := ⟨[98], some ⟨some ⟨10, none⟩, none, none, none, none, none, none, none, "q"⟩⟩

/-- A sink that raises on the first insert of a run and then recovers. -/
def errFirst : Nat → Bool := fun n => n == 0

-- ===========================================================================
-- Helper lemmas about the loop step.
-- ===========================================================================

/-- Exhaustive description of the six outcomes of one loop iteration:
empty line, malformed line, missing timestamp, already-processed timestamp,
sink error, duplicate fingerprint, or a fresh insert. -/
theorem step_shape (last : DateTime) (err : Nat → Bool) (s : RunState) (l : Line) :
    (step last err s l = s) ∨
    (step last err s l = bump s) ∨
    (step last err s l = { bump s with skipped_old := s.skipped_old + 1 }) ∨
    (step last err s l = { bump s with attempts := s.attempts + 1 }) ∨
    (step last err s l = { bump s with skipped_dupe := s.skipped_dupe + 1,
                                       attempts := s.attempts + 1 }) ∨
    (∃ ts d, l.parsed = some d ∧ parse_ts d.tsVal = some ts ∧
      last.instant < ts.instant ∧
      s.db.any (fun r => r.raw_sha256 == sha256hex (stripBytes l.raw)) = false ∧
      step last err s l = { bump s with
        db := s.db ++ [mkRow ts d (sha256hex (stripBytes l.raw))],
        inserted := s.inserted + 1,
        new_ts := if s.new_ts.instant < ts.instant then ts else s.new_ts,
        attempts := s.attempts + 1 }) := by
  unfold step
  split
  · exact Or.inl rfl
  · split
    · exact Or.inr (Or.inl rfl)
    · rename_i d hd
      split
      · exact Or.inr (Or.inl rfl)
      · rename_i ts hts
        split
        · exact Or.inr (Or.inr (Or.inl rfl))
        · rename_i hle
          split
          · exact Or.inr (Or.inr (Or.inr (Or.inl rfl)))
          · split
            · exact Or.inr (Or.inr (Or.inr (Or.inr (Or.inl rfl))))
            · rename_i hany
              refine Or.inr (Or.inr (Or.inr (Or.inr (Or.inr ⟨ts, d, hd, hts, ?_, ?_, rfl⟩))))
              · exact Int.not_le.mp hle
              · exact Bool.not_eq_true _ ▸ (by simpa using hany)

/-- Folding the step function preserves any invariant the step preserves. -/
theorem foldl_step_inv (last : DateTime) (err : Nat → Bool) (P : RunState → Prop)
    (hstep : ∀ s l, P s → P (step last err s l)) :
    ∀ (lines : List Line) (s : RunState), P s → P (List.foldl (step last err) s lines) := by
  intro lines
  induction lines with
  | nil => intro s hs; simpa using hs
  | cons a t ih => intro s hs; simpa using ih (step last err s a) (hstep s a hs)

/-- One iteration never lowers the in-memory high watermark. -/
theorem step_new_ts_mono (last : DateTime) (err : Nat → Bool) (s : RunState) (l : Line) :
    s.new_ts.instant ≤ (step last err s l).new_ts.instant := by
  rcases step_shape last err s l with h | h | h | h | h | ⟨ts, d, _, _, _, _, h⟩ <;>
    rw [h] <;> simp [bump]
  split <;> omega

/-- A false any-test for a fingerprint means no stored row carries it. -/
theorem not_mem_of_any_false (db : List Row) (h : String)
    (ha : db.any (fun r => r.raw_sha256 == h) = false) :
    h ∉ db.map Row.raw_sha256 := by
  intro hmem
  rcases List.mem_map.mp hmem with ⟨r, hr, hrh⟩
  have := (List.any_eq_false.mp ha) r hr
  simp [hrh] at this

/-- One iteration preserves distinctness of the stored fingerprints. -/
theorem step_nodup (last : DateTime) (err : Nat → Bool) (s : RunState) (l : Line)
    (h : (s.db.map Row.raw_sha256).Nodup) :
    ((step last err s l).db.map Row.raw_sha256).Nodup := by
  rcases step_shape last err s l with he | he | he | he | he | ⟨ts, d, _, _, _, hany, he⟩ <;>
    rw [he] <;> try simpa [bump] using h
  have hnm := not_mem_of_any_false s.db (sha256hex (stripBytes l.raw)) hany
  simp only [bump, List.map_append, List.map_cons, List.map_nil]
  rw [List.nodup_append]
  refine ⟨h, List.nodup_singleton _, ?_⟩
  intro a ha hb
  simp only [mkRow, List.mem_singleton] at hb
  subst hb
  exact hnm ha

/-- A whole run preserves distinctness of the stored fingerprints. -/
theorem runETL_nodup (w : Etl) (lines : List Line) (err : Nat → Bool)
    (h : (w.db.map Row.raw_sha256).Nodup) :
    (((runETL w lines err).1.db).map Row.raw_sha256).Nodup := by
  simp only [runETL]
  exact foldl_step_inv _ err (fun s => (s.db.map Row.raw_sha256).Nodup)
    (fun s l => step_nodup _ err s l) lines (initState _ w.db) h

/-- Any sequence of runs preserves distinctness of the stored fingerprints. -/
theorem applyRuns_nodup (runs : List (List Line × (Nat → Bool))) :
    ∀ w : Etl, (w.db.map Row.raw_sha256).Nodup →
      (((applyRuns w runs).db).map Row.raw_sha256).Nodup := by
  induction runs with
  | nil => intro w h; simpa [applyRuns] using h
  | cons r t ih =>
      intro w h
      have h1 := runETL_nodup w r.1 r.2 h
      simpa [applyRuns] using ih (runETL w r.1 r.2).1 h1

/-- A fingerprint outside the image of f selects nothing. -/
theorem filter_eq_nil_of_not_mem (f : Row → String) (x : String) :
    ∀ t : List Row, x ∉ t.map f → t.filter (fun r => f r == x) = [] := by
  intro t
  induction t with
  | nil => intro _; rfl
  | cons a u ih =>
      intro hx
      have hne : ¬ (f a = x) := fun he => hx (by simp [he])
      have hu : x ∉ u.map f := fun hm => hx (by simp [hm])
      simp only [List.filter, beq_eq_false_iff_ne.mpr hne]
      exact ih hu

/-- Distinct fingerprints bound every fingerprint class by one row. -/
theorem count_filter_le_one (f : Row → String) (l : List Row)
    (h : (l.map f).Nodup) (x : String) :
    (l.filter (fun r => f r == x)).length ≤ 1 := by
  induction l with
  | nil => simp
  | cons r t ih =>
      rw [List.map_cons, List.nodup_cons] at h
      by_cases hc : f r = x
      · have : t.filter (fun r => f r == x) = [] :=
          filter_eq_nil_of_not_mem f x t (hc ▸ h.1)
        simp [List.filter, hc, this]
      · simp only [List.filter, beq_eq_false_iff_ne.mpr hc]
        exact ih h.2

-- ===========================================================================
-- C1: dedup correctness.
-- ===========================================================================

/-- C1: two source lines with identical trimmed bytes get the identical
SHA-256 fingerprint, and after any sequence of runs over a sink whose
stored fingerprints are distinct (the uniqueness constraint the bootstrap
DDL guarantees), at most one stored row carries that fingerprint: the
conflict clause stores the first such line and ignores every later one,
within a file and across runs. -/
theorem c1_dedup (w : Etl) (runs : List (List Line × (Nat → Bool)))
    (h : (w.db.map Row.raw_sha256).Nodup) (l1 l2 : Line)
    (hb : stripBytes l1.raw = stripBytes l2.raw) :
    sha256hex (stripBytes l1.raw) = sha256hex (stripBytes l2.raw) ∧
    ((applyRuns w runs).db.filter
        (fun r => r.raw_sha256 == sha256hex (stripBytes l1.raw))).length ≤ 1 := by
  constructor
  · rw [hb]
  · exact count_filter_le_one Row.raw_sha256 (applyRuns w runs).db
      (applyRuns_nodup runs w h) (sha256hex (stripBytes l1.raw))

/-- Witness for c1_dedup: the same line fed twice to one run over an empty
sink leaves at most one matching row. -/
theorem c1_dedup_witness :
    sha256hex (stripBytes lineP.raw) = sha256hex (stripBytes lineP.raw) ∧
    ((applyRuns ⟨none, []⟩ [([lineP, lineP], noErr)]).db.filter
        (fun r => r.raw_sha256 == sha256hex (stripBytes lineP.raw))).length ≤ 1 :=
  c1_dedup ⟨none, []⟩ [([lineP, lineP], noErr)] (by simp) lineP lineP rfl

-- ===========================================================================
-- C5: watermark monotonicity.
-- ===========================================================================

/-- Normalizing to UTC never changes the instant a datetime denotes. -/
theorem utcify1_instant (d : DateTime) : (utcify1 d).instant = d.instant := by
  cases h : d.tz <;> simp [utcify1, DateTime.instant, h]

/-- Normalizing to UTC always yields offset zero. -/
theorem utcify1_tz (d : DateTime) : (utcify1 d).tz = some 0 := by
  cases h : d.tz <;> simp [utcify1, h]

/-- The high watermark at the end of the loop is at least the loaded one. -/
theorem final_new_ts_ge (w : Etl) (lines : List Line) (err : Nat → Bool) :
    (get_last_ts w.stateFile).instant ≤ (finalState w lines err).new_ts.instant := by
  exact foldl_step_inv _ err
    (fun s => (get_last_ts w.stateFile).instant ≤ s.new_ts.instant)
    (fun s l hs => le_trans hs (step_new_ts_mono _ err s l))
    lines (initState _ w.db) (le_refl _)

/-- C5: the watermark persisted after a run is at least the watermark
loaded before it, and the checkpoint file is rewritten only when the
in-memory high watermark strictly exceeds the loaded value: otherwise the
file value is untouched. -/
theorem c5_watermark_monotone (w : Etl) (lines : List Line) (err : Nat → Bool) :
    (get_last_ts w.stateFile).instant ≤
      (get_last_ts (runETL w lines err).1.stateFile).instant ∧
    (¬ (get_last_ts w.stateFile).instant < (runETL w lines err).2.new_ts.instant →
      (runETL w lines err).1.stateFile = w.stateFile) := by
  simp only [runETL]
  by_cases hlt :
      (get_last_ts w.stateFile).instant < (finalState w lines err).new_ts.instant
  · rw [if_pos hlt]
    refine ⟨?_, fun hcon => absurd hlt hcon⟩
    rw [show get_last_ts (some (some (utcify1 (finalState w lines err).new_ts))) =
        utcify1 (utcify1 (finalState w lines err).new_ts) from rfl]
    rw [utcify1_instant, utcify1_instant]
    exact le_of_lt hlt
  · rw [if_neg hlt]
    exact ⟨le_refl _, fun _ => rfl⟩

/-- Witness for c5_watermark_monotone at a concrete world and source. -/
theorem c5_watermark_monotone_witness :
    (get_last_ts (⟨some (some ⟨1000, some 0⟩), []⟩ : Etl).stateFile).instant ≤
      (get_last_ts (runETL ⟨some (some ⟨1000, some 0⟩), []⟩ [lineC] noErr).1.stateFile).instant ∧
    (¬ (get_last_ts (⟨some (some ⟨1000, some 0⟩), []⟩ : Etl).stateFile).instant <
        (runETL ⟨some (some ⟨1000, some 0⟩), []⟩ [lineC] noErr).2.new_ts.instant →
      (runETL ⟨some (some ⟨1000, some 0⟩), []⟩ [lineC] noErr).1.stateFile =
        (⟨some (some ⟨1000, some 0⟩), []⟩ : Etl).stateFile) :=
  c5_watermark_monotone ⟨some (some ⟨1000, some 0⟩), []⟩ [lineC] noErr

-- ===========================================================================
-- C9: only fresh inserts move the watermark; no insert, no checkpoint write.
-- ===========================================================================

/-- A loop state that has inserted nothing still carries the loaded
watermark as its high watermark. -/
theorem final_inserted_zero (w : Etl) (lines : List Line) (err : Nat → Bool)
    (h : (finalState w lines err).inserted = 0) :
    (finalState w lines err).new_ts = get_last_ts w.stateFile := by
  refine foldl_step_inv _ err
    (fun s => s.inserted = 0 → s.new_ts = get_last_ts w.stateFile)
    ?_ lines (initState _ w.db) (fun _ => rfl) h
  intro s l hs
  rcases step_shape (get_last_ts w.stateFile) err s l
    with he | he | he | he | he | ⟨ts, d, _, _, _, _, he⟩ <;> rw [he]
  all_goals try exact hs
  intro h0
  exact absurd h0 (Nat.succ_ne_zero _)

/-- C9: a record that is not newly inserted (skipped as old, skipped as a
duplicate, or rejected by the sink) never changes the in-memory high
watermark, and a run that inserts nothing leaves the checkpoint file
untouched. -/
theorem c9_frame_new_ts :
    (∀ (last : DateTime) (errf : Nat → Bool) (s : RunState) (l : Line),
      (step last errf s l).inserted = s.inserted →
      (step last errf s l).new_ts = s.new_ts) ∧
    (∀ (w : Etl) (lines : List Line) (err : Nat → Bool),
      (runETL w lines err).2.inserted = 0 →
      (runETL w lines err).1.stateFile = w.stateFile) := by
  constructor
  · intro last errf s l
    rcases step_shape last errf s l
      with he | he | he | he | he | ⟨ts, d, _, _, _, _, he⟩ <;> rw [he]
    all_goals try exact fun _ => rfl
    intro h0
    exact absurd h0 (Nat.succ_ne_self s.inserted)
  · intro w lines err h
    have h0 : (finalState w lines err).inserted = 0 := by
      simpa [runETL] using h
    have hnew := final_inserted_zero w lines err h0
    simp only [runETL]
    rw [if_neg]
    rw [hnew]
    exact lt_irrefl _

/-- Witness for c9_frame_new_ts: a malformed line leaves the watermark in
place, and a run that inserts nothing leaves the state file in place. -/
theorem c9_frame_new_ts_witness :
    (step pyMin noErr (initState pyMin []) lineB).new_ts =
      (initState pyMin []).new_ts ∧
    (runETL ⟨some (some ⟨1000, some 0⟩), []⟩ [lineC] noErr).1.stateFile =
      (⟨some (some ⟨1000, some 0⟩), []⟩ : Etl).stateFile :=
  ⟨c9_frame_new_ts.1 pyMin noErr (initState pyMin []) lineB (by decide),
   c9_frame_new_ts.2 ⟨some (some ⟨1000, some 0⟩), []⟩ [lineC] noErr (by decide)⟩

-- ===========================================================================
-- C4: the summary counters.  The code keeps four counters only; a decode
-- failure increments nothing beyond scanned, so the counters do not
-- partition the scanned lines.
-- ===========================================================================

/-- C4 counterexample: a source holding one malformed line is scanned once,
yet no skip counter moves: the summary has no skipped_unparsable counter
(the embedded Summary mirrors the four counters the code reports) and the
counters reported do not partition the scanned lines. -/
theorem c4_counterexample :
    ¬ ((runETL ⟨none, []⟩ [lineB] noErr).2.scanned =
        (runETL ⟨none, []⟩ [lineB] noErr).2.inserted +
        (runETL ⟨none, []⟩ [lineB] noErr).2.skipped_old +
        (runETL ⟨none, []⟩ [lineB] noErr).2.skipped_dupe) := by
  decide

/-- C4 amended: the loader reports four counters — scanned, inserted,
skipped_old, skipped_dupe — on every decode failure on a non-empty line,
whether the line is malformed JSON or its timestamp is missing or
unparsable, it increments only scanned before continuing, and for every
input the three skip or insert counters sum to at most the scanned count,
with the difference being the lines that were malformed, lacked a parsable
timestamp, or hit a sink error. -/
theorem c4_amended :
    (∀ (last : DateTime) (errf : Nat → Bool) (s : RunState) (l : Line),
      stripBytes l.raw ≠ [] →
      (l.parsed = none ∨ ∃ d, l.parsed = some d ∧ parse_ts d.tsVal = none) →
      step last errf s l = { s with scanned := s.scanned + 1 }) ∧
    (∀ (w : Etl) (lines : List Line) (err : Nat → Bool),
      (runETL w lines err).2.inserted + (runETL w lines err).2.skipped_old +
        (runETL w lines err).2.skipped_dupe ≤ (runETL w lines err).2.scanned) := by
  constructor
  · intro last errf s l h2 h1
    rcases h1 with h1 | ⟨d, h1, hts⟩
    · simp [step, h1, h2, bump]
    · simp [step, h1, h2, hts, bump]
  · intro w lines err
    simp only [runETL]
    refine foldl_step_inv _ err
      (fun s => s.inserted + s.skipped_old + s.skipped_dupe ≤ s.scanned)
      ?_ lines (initState _ w.db) (by simp [initState])
    intro s l hs
    rcases step_shape (get_last_ts w.stateFile) err s l
      with he | he | he | he | he | ⟨ts, d, _, _, _, _, he⟩ <;> rw [he]
    all_goals try exact hs
    all_goals simp [bump]
    all_goals omega

/-- Witness for c4_amended: the malformed line and the timestamp-less line
each bump only scanned, and the counter sum bound holds on a run over
both. -/
theorem c4_amended_witness :
    step pyMin noErr (initState pyMin []) lineB =
      { initState pyMin [] with scanned := (initState pyMin []).scanned + 1 } ∧
    step pyMin noErr (initState pyMin []) lineN =
      { initState pyMin [] with scanned := (initState pyMin []).scanned + 1 } ∧
    (runETL ⟨none, []⟩ [lineB, lineN] noErr).2.inserted +
        (runETL ⟨none, []⟩ [lineB, lineN] noErr).2.skipped_old +
        (runETL ⟨none, []⟩ [lineB, lineN] noErr).2.skipped_dupe ≤
      (runETL ⟨none, []⟩ [lineB, lineN] noErr).2.scanned :=
  ⟨c4_amended.1 pyMin noErr (initState pyMin []) lineB (by decide) (Or.inl rfl),
   c4_amended.1 pyMin noErr (initState pyMin []) lineN (by decide)
     (Or.inr ⟨⟨none, none, none, none, none, none, none, none, "N"⟩, rfl, rfl⟩),
   c4_amended.2 ⟨none, []⟩ [lineB, lineN] noErr⟩

-- ===========================================================================
-- C3: the four-line scenario with the watermark preloaded to T0.
-- ===========================================================================

/-- C3 counterexample: on the scenario source A, B, A, C with the watermark
preloaded to instant 1000 (T0, the event time of A), the run inserts
nothing and skips nothing as a duplicate: A's event time does not exceed
the watermark, so it is skipped as old, contradicting the claimed summary
inserted = 1, skipped_duplicate = 1, skipped_old = 1. -/
theorem c3_counterexample :
    ¬ ((runETL wmT0 [lineA, lineB, lineA, lineC] noErr).2.inserted = 1 ∧
       (runETL wmT0 [lineA, lineB, lineA, lineC] noErr).2.skipped_dupe = 1 ∧
       (runETL wmT0 [lineA, lineB, lineA, lineC] noErr).2.skipped_old = 1) := by
  decide

/-- C3 amended: on that scenario the summary is scanned = 4, inserted = 0,
skipped_old = 3 (A, the A repeat and C — A's event time equals the
watermark, so the at-or-before test skips it as old), skipped_dupe = 0,
malformed B increments no counter beyond scanned, and the persisted
watermark is unchanged at T0. -/
theorem c3_amended :
    (runETL wmT0 [lineA, lineB, lineA, lineC] noErr).2 =
      ⟨4, 0, 3, 0, ⟨1000, some 0⟩, ⟨1000, some 0⟩⟩ ∧
    (runETL wmT0 [lineA, lineB, lineA, lineC] noErr).1.stateFile = wmT0.stateFile := by
  decide

-- ===========================================================================
-- C2: an event can be permanently lost.
-- ===========================================================================

/-- C2, evaluated at the failing input: lineP is decodable with event time
5, newer than the initial (absent) watermark.  In the first run the sink
raises on lineP's insert and the loop continues; lineQ with event time 10
is inserted and the watermark is persisted at 10.  A later complete run
(no sink errors at all) over the unchanged source then classifies both
lines as skipped_old, and no row with lineP's fingerprint is ever stored:
the event is permanently lost, so the failed record is not stored by a
later complete run as the claim states. -/
theorem c2_lost_event :
    pyMin.instant < (⟨5, some 0⟩ : DateTime).instant ∧
    parse_ts (some ⟨5, none⟩) = some ⟨5, some 0⟩ ∧
    (runETL ⟨none, []⟩ [lineP, lineQ] errFirst).1.stateFile =
      some (some ⟨10, some 0⟩) ∧
    ((runETL (runETL ⟨none, []⟩ [lineP, lineQ] errFirst).1
        [lineP, lineQ] noErr).1.db.filter
       (fun r => r.raw_sha256 == sha256hex (stripBytes lineP.raw))).length = 0 ∧
    (runETL (runETL ⟨none, []⟩ [lineP, lineQ] errFirst).1
        [lineP, lineQ] noErr).2.skipped_old = 2 := by
  decide

-- ===========================================================================
-- C6: a sink failure on one record is absorbed and the loop continues.
-- ===========================================================================

/-- C6: when the sink raises on the insert of a decodable, sufficiently new
record, the exception is caught inside the loop: the record is skipped with
only the scanned count (and the attempt index) moving — no counter, row or
watermark changes — and the remaining lines are processed exactly as they
would be from that state, so no record-level condition escapes the loop or
aborts the run. -/
theorem c6_sink_error_absorbed (last : DateTime) (err : Nat → Bool) (s : RunState)
    (l : Line) (d : LineData) (ts : DateTime)
    (h0 : stripBytes l.raw ≠ []) (h1 : l.parsed = some d)
    (h2 : parse_ts d.tsVal = some ts) (h3 : last.instant < ts.instant)
    (h4 : err s.attempts = true) :
    step last err s l = { s with scanned := s.scanned + 1, attempts := s.attempts + 1 } ∧
    ∀ rest : List Line,
      List.foldl (step last err) (step last err s l) rest =
        List.foldl (step last err)
          { s with scanned := s.scanned + 1, attempts := s.attempts + 1 } rest := by
  have hstep : step last err s l =
      { s with scanned := s.scanned + 1, attempts := s.attempts + 1 } := by
    simp [step, h0, h1, h2, h4, bump, Int.not_le.mpr h3]
  exact ⟨hstep, fun rest => by rw [hstep]⟩

/-- Witness for c6_sink_error_absorbed: a failing sink on lineP bumps only
scanned and the attempt index, and processing continues over lineQ. -/
theorem c6_sink_error_absorbed_witness :
    step pyMin (fun _ => true) (initState pyMin []) lineP =
      { initState pyMin [] with
          scanned := (initState pyMin []).scanned + 1,
          attempts := (initState pyMin []).attempts + 1 } ∧
    List.foldl (step pyMin (fun _ => true))
        (step pyMin (fun _ => true) (initState pyMin []) lineP) [lineQ] =
      List.foldl (step pyMin (fun _ => true))
        { initState pyMin [] with
            scanned := (initState pyMin []).scanned + 1,
            attempts := (initState pyMin []).attempts + 1 } [lineQ] :=
  ⟨(c6_sink_error_absorbed pyMin (fun _ => true) (initState pyMin []) lineP
      ⟨some ⟨5, none⟩, none, none, none, none, none, none, none, "p"⟩ ⟨5, some 0⟩
      (by decide) rfl rfl (by decide) rfl).1,
   (c6_sink_error_absorbed pyMin (fun _ => true) (initState pyMin []) lineP
      ⟨some ⟨5, none⟩, none, none, none, none, none, none, none, "p"⟩ ⟨5, some 0⟩
      (by decide) rfl rfl (by decide) rfl).2 [lineQ]⟩

-- ===========================================================================
-- C7: timestamp normalization.
-- ===========================================================================

/-- C7: a naive timestamp is stamped as UTC unchanged, every parsed
timestamp is normalized to the equivalent UTC instant with offset zero,
and two timestamp values denoting the same instant behave identically in
the loop's watermark comparison. -/
theorem c7_timestamp_normalization :
    (∀ d : DateTime, d.tz = none → parse_ts (some d) = some ⟨d.naive, some 0⟩) ∧
    (∀ d e : DateTime, parse_ts (some d) = some e →
      e.instant = d.instant ∧ e.tz = some 0) ∧
    (∀ d1 d2 wm e1 e2 : DateTime, d1.instant = d2.instant →
      parse_ts (some d1) = some e1 → parse_ts (some d2) = some e2 →
      ((e1.instant ≤ wm.instant) ↔ (e2.instant ≤ wm.instant))) := by
  have hinst : ∀ d e : DateTime, parse_ts (some d) = some e →
      e.instant = d.instant ∧ e.tz = some 0 := by
    intro d e h
    have he : e = utcify1 d := by
      simpa [parse_ts, utcify] using h.symm
    rw [he]
    exact ⟨utcify1_instant d, utcify1_tz d⟩
  refine ⟨?_, hinst, ?_⟩
  · intro d h
    simp [parse_ts, utcify, utcify1, h]
  · intro d1 d2 wm e1 e2 h12 h1 h2
    rw [(hinst d1 e1 h1).1, (hinst d2 e2 h2).1, h12]

/-- Witness for c7_timestamp_normalization: a naive value 100 is stamped
UTC as is, the aware value 150 at offset 60 normalizes to instant 90, and
a naive 90 compares against the watermark exactly as the aware 150 at
offset 60 does. -/
theorem c7_timestamp_normalization_witness :
    parse_ts (some ⟨100, none⟩) = some ⟨100, some 0⟩ ∧
    ((⟨90, some 0⟩ : DateTime).instant = (⟨150, some 60⟩ : DateTime).instant ∧
      (⟨90, some 0⟩ : DateTime).tz = some 0) ∧
    (((⟨90, some 0⟩ : DateTime).instant ≤ (⟨90, some 0⟩ : DateTime).instant) ↔
      ((⟨90, some 0⟩ : DateTime).instant ≤ (⟨90, some 0⟩ : DateTime).instant)) :=
  ⟨c7_timestamp_normalization.1 ⟨100, none⟩ rfl,
   c7_timestamp_normalization.2.1 ⟨150, some 60⟩ ⟨90, some 0⟩ (by decide),
   c7_timestamp_normalization.2.2 ⟨90, none⟩ ⟨150, some 60⟩ ⟨90, some 0⟩
     ⟨90, some 0⟩ ⟨90, some 0⟩ (by decide) (by decide) (by decide)⟩


-- ===========================================================================
-- C8: the ask endpoint executes only validated, limited statements.
-- ===========================================================================

/-- The first element surviving a dropWhile fails the predicate. -/
theorem dropWhile_head_false {α : Type} (p : α → Bool) :
    ∀ (l : List α) (c : α) (t : List α), l.dropWhile p = c :: t → p c = false := by
  intro l
  induction l with
  | nil => intro c t h; cases h
  | cons a u ih =>
      intro c t h
      rw [List.dropWhile] at h
      cases hp : p a with
      | true => rw [hp] at h; exact ih c t h
      | false =>
          rw [hp] at h
          injection h with h1 h2
          exact h1 ▸ hp

/-- Dropping a prefix by a predicate is idempotent. -/
theorem dropWhile_idem {α : Type} (p : α → Bool) (l : List α) :
    (l.dropWhile p).dropWhile p = l.dropWhile p := by
  cases hl : l.dropWhile p with
  | nil => rfl
  | cons c t =>
      rw [List.dropWhile, dropWhile_head_false p l c t hl]

/-- A stripped text has no leading whitespace left to drop. -/
theorem pyStrip_nofront (l : List Char) :
    (pyStripChars l).dropWhile pyIsSpace = pyStripChars l := by
  unfold pyStripChars
  exact dropWhile_idem pyIsSpace _

/-- Every branch of the extraction produces a stripped text. -/
theorem chooseSql_strip (t : List Char) : ∃ u, chooseSql t = pyStripChars u := by
  unfold chooseSql
  rcases fenceSearch t with _ | content
  · rcases findSemi t with _ | pre
    · exact ⟨t, rfl⟩
    · exact ⟨pre, rfl⟩
  · exact ⟨content, rfl⟩

/-- The anchored SELECT match on a text with no leading whitespace means
the text starts with the keyword. -/
theorem matchSelect_starts (l : List Char) (h : matchSelect l = true)
    (hs : l.dropWhile pyIsSpace = l) : startsCaseless selectKw l = true := by
  unfold matchSelect at h
  rw [hs] at h
  simp only [Bool.and_eq_true] at h
  exact h.1

/-- Unfolding of the word scan on a cons cell. -/
theorem findWordAux_cons (kw : List Char) (prev : Option Char) (c : Char) (cs : List Char) :
    findWordAux kw prev (c :: cs) =
      (wordHere kw prev (c :: cs) || findWordAux kw (some c) cs) := rfl

/-- A position whose text does not start with the keyword matches nothing,
whatever the previous character was. -/
theorem wordHere_false_of_starts (kw : List Char) (prev : Option Char) (l : List Char)
    (h : startsCaseless kw l = false) : wordHere kw prev l = false := by
  unfold wordHere
  rw [h]
  simp

/-- The list of characters appended by ask. -/
theorem limitSuffix_eq :
    limitSuffix = [' ', 'L', 'I', 'M', 'I', 'T', ' ', '2', '0', '0', ';'] := by decide

/-- The appended clause contains the LIMIT token whatever character
precedes it. -/
theorem limit_tail (prev : Option Char) :
    findWordAux limitKw prev limitSuffix = true := by
  rw [limitSuffix_eq, findWordAux_cons,
    wordHere_false_of_starts limitKw prev _ (by decide),
    show findWordAux limitKw (some ' ')
      ['L', 'I', 'M', 'I', 'T', ' ', '2', '0', '0', ';'] = true from by decide]
  rfl

/-- A text that ends in a token match has the token, whatever comes
before. -/
theorem findWordAux_append (kw t : List Char)
    (h : ∀ prev, findWordAux kw prev t = true) :
    ∀ (a : List Char) (prev : Option Char), findWordAux kw prev (a ++ t) = true := by
  intro a
  induction a with
  | nil => intro prev; simpa using h prev
  | cons c cs ih =>
      intro prev
      rw [List.cons_append, findWordAux_cons, ih (some c)]
      simp

/-- C8: when extract_sql accepts, the string it returns starts with the
SELECT keyword (case-insensitively, after the stripping every branch
performs) and contains no denylisted write or DDL keyword as a whole word;
and the statement the ask endpoint then hands to run_sql always carries a
LIMIT token — either one already present, or the appended clause of
exactly MAX_ROWS rows.  When extract_sql rejects, the endpoint raises the
HTTP 400 error instead and nothing reaches the store. -/
theorem c8_ask_sql_guarded (text s : String)
    (h : extract_sql text = Except.ok s) :
    startsCaseless selectKw s.toList = true ∧
    denySearch s.toList = false ∧
    ∀ fin : String, ask_sql text = Except.ok fin →
      hasWord limitKw fin.toList = true := by
  have hcopy := h
  unfold extract_sql at h
  split at h
  · cases h
  · split at h
    · cases h
    · rename_i hd hm
      have hs : s = String.mk (chooseSql text.toList) := by
        cases h; rfl
      subst hs
      refine ⟨?_, ?_, ?_⟩
      · show startsCaseless selectKw (chooseSql text.toList) = true
        obtain ⟨u, hu⟩ := chooseSql_strip text.toList
        have hm' : matchSelect (chooseSql text.toList) = true := by
          simpa using hm
        exact matchSelect_starts _ hm' (hu ▸ pyStrip_nofront u)
      · show denySearch (chooseSql text.toList) = false
        simpa using hd
      · intro fin hf
        unfold ask_sql at hf
        rw [hcopy] at hf
        dsimp only at hf
        split at hf
        · rename_i hl
          cases hf
          exact hl
        · cases hf
          exact findWordAux_append limitKw limitSuffix limit_tail _ none

/-- Witness for c8_ask_sql_guarded on a concrete model output: the SELECT
passes validation and the executed statement gains the LIMIT clause. -/
theorem c8_ask_sql_guarded_witness :
    startsCaseless selectKw (String.toList "SELECT 1;") = true ∧
    denySearch (String.toList "SELECT 1;") = false ∧
    hasWord limitKw (String.toList "SELECT 1 LIMIT 200;") = true :=
  ⟨(c8_ask_sql_guarded "SELECT 1;" "SELECT 1;" (by rfl)).1,
   (c8_ask_sql_guarded "SELECT 1;" "SELECT 1;" (by rfl)).2.1,
   (c8_ask_sql_guarded "SELECT 1;" "SELECT 1;" (by rfl)).2.2
     "SELECT 1 LIMIT 200;" (by rfl)⟩

-- ===========================================================================
-- C10: the health endpoint is total.
-- ===========================================================================

/-- C10: whatever the database probe does — rows back, an exception, an
empty result making the row indexing raise, a missing column making the
lookup raise — health returns a dictionary: the ok-true shape on success
and the ok-false shape carrying the error text otherwise; no exception
propagates to the caller. -/
theorem c10_health_total :
    ∀ probe : Except String (List (List (String × Int))),
      (∃ db : Bool, health probe = [("ok", JVal.jb true), ("db", JVal.jb db)]) ∨
      (∃ e : String, health probe = [("ok", JVal.jb false), ("error", JVal.js e)]) := by
  intro probe
  rcases h : healthTry probe with e | db
  · exact Or.inr ⟨e, by simp [health, h]⟩
  · exact Or.inl ⟨db, by simp [health, h]⟩
